import Mathlib

/-!
Shallow embedding of the pipetteControler repository (Python) in Lean 4.

Bytes are modelled as `Nat` (values 0..255 in practice); byte strings as
`List Nat`.  The serial frame codec comes from `pipette_controller.py`
(`PipetteController`), the SET_ACTION payload builder and the status
monitor from `integrate_pipette.py`, and the Modbus workflow bridge from
`server.py` (`PipetteWorkflowDataBlock`) with the address map of
`config.py`.
-/

namespace Pipette

/-! ## Frame codec (`pipette_controller.py`) -/

/-- Protocol constant `PipetteController.STX = 0x02`. -/
def STX : Nat := 0x02

/-- Protocol constant `PipetteController.ETX = 0x03`. -/
def ETX : Nat := 0x03

/-- Protocol constant `PipetteController.ESC = 0x1B`. -/
def ESC : Nat := 0x1B

/-- `PipetteController._build_checksum`: `(256 - sum(data) % 256) % 256`. -/
def build_checksum (data : List Nat) : Nat :=
  (256 - data.sum % 256) % 256

/-- `PipetteController._escape_data`: each occurrence of STX, ETX or ESC is
preceded by an inserted ESC byte. -/
def escape_data : List Nat → List Nat
  | [] => []
  | b :: rest =>
      (if b = STX ∨ b = ETX ∨ b = ESC then [ESC, b] else [b]) ++ escape_data rest

/-- Sequence-counter update at the top of `PipetteController._build_message`:
`if self.sequence_number > 65000: self.sequence_number = 1 else: += 1`. -/
def next_sequence (seq : Nat) : Nat :=
  if seq > 65000 then 1 else seq + 1

/-- Sequence counter after `n` calls to `_build_message`, starting from the
constructor value `self.sequence_number = 1`. -/
def seq_after (n : Nat) : Nat :=
  next_sequence^[n] 1

/-- The 8-byte header of `_build_message` with the checksum placeholder 0:
length, checksum placeholder, sequence number, resend flag, message type
(big-endian 16-bit fields, one 8-bit each for checksum and resend flag). -/
def build_header (length seq msgType : Nat) : List Nat :=
  [length / 256, length % 256, 0, seq / 256, seq % 256, 0, msgType / 256, msgType % 256]

/-- Header (checksum field still 0) concatenated with the payload, the byte
string over which `_build_checksum` is computed in `_build_message`. -/
def message_zero_checksum (seq msgType : Nat) (data : List Nat) : List Nat :=
  build_header (8 + data.length) seq msgType ++ data

/-- The unescaped message of `_build_message`: header plus payload with the
checksum backfilled at index 2. -/
def message_bytes (seq msgType : Nat) (data : List Nat) : List Nat :=
  (message_zero_checksum seq msgType data).set 2
    (build_checksum (message_zero_checksum seq msgType data))

/-- `PipetteController._build_message`: steps the sequence counter, builds the
checksummed message, escapes it and wraps it in STX/ETX.  Returns the new
sequence counter and the frame. -/
def build_message (sequence_number msgType : Nat) (data : List Nat) : Nat × List Nat :=
  let seq := next_sequence sequence_number
  (seq, STX :: (escape_data (message_bytes seq msgType data) ++ [ETX]))

/-- Python `str.ljust` / `bytes.ljust`: pad on the right with `fill` up to
length `n` (no truncation). -/
def ljust (l : List Nat) (n : Nat) (fill : Nat) : List Nat :=
  l ++ List.replicate (n - l.length) fill

/-- The `displayMessage` field of `execute_action`: `message[:20]` padded with
NULs to 20 if a message is given, else the action name followed by `"..."`
padded to 20; then encoded as ASCII with non-ASCII code points dropped,
truncated to 20, and NUL-padded to 20 again. -/
def display_field (message action_name : List Nat) : List Nat :=
  let display_msg :=
    if message = [] then ljust (action_name ++ [46, 46, 46]) 20 0
    else ljust (message.take 20) 20 0
  let display_bytes := (display_msg.filter (fun c => c < 128)).take 20
  ljust (display_bytes.take 20) 20 0

/-- The `action_data` byte string of `execute_action`: action, speed, volume
high/low bytes, mix cycles, RUN-confirmation flag, 20-byte display message,
spacing high/low bytes. -/
def execute_action_data (action speed volume mix_cycles : Nat)
    (run_confirmation : Bool) (message action_name : List Nat) : List Nat :=
  [action, speed, volume / 256, volume % 256, mix_cycles,
    if run_confirmation then 1 else 0]
  ++ display_field message action_name
  ++ [0, 0]

/-- The `displayMessage` field of `PipetteController.purge`: `message[:20]`
NUL-padded to 20, encoded as ASCII with non-ASCII code points dropped,
truncated to 20, and NUL-padded to 20 again.  This is also the body of the
nonempty-message branch of `display_field`. -/
def purge_display_field (message : List Nat) : List Nat :=
  let display_msg := ljust (message.take 20) 20 0
  let display_bytes := (display_msg.filter (fun c => c < 128)).take 20
  ljust (display_bytes.take 20) 20 0

/-- The `action_data` byte string of `PipetteController.purge`: action PURGE
(4), speed, two zero volume bytes, zero mix cycles, zero RUN-confirmation
byte, the 20-byte display message, and two zero spacing bytes. -/
def purge_action_data (speed : Nat) (message : List Nat) : List Nat :=
  [4, speed, 0, 0, 0, 0] ++ purge_display_field message ++ [0, 0]

/-! ## Status monitor (`integrate_pipette.py`, `monitor_action`) -/

/-- One poll iteration's input in `monitor_action`: the status request failed
to send, no response arrived within the per-request timeout, or a response
with a status code and data bytes arrived. -/
inductive PollOutcome where
  | sendFail : PollOutcome
  | noResponse : PollOutcome
  | reply (status_code : Nat) (data : List Nat) : PollOutcome
deriving DecidableEq

/-- Decision taken by one iteration of the `monitor_action` loop: `some true`
returns success, `some false` returns failure, `none` keeps polling.  READY
(0) succeeds, USER_ABORT (5) fails, WAIT_FOR_BLOWIN (1) succeeds;
WAIT_FOR_RUN_KEY (2), BUSY (3), PIPETTE_NOT_HOMED (4) and any other action
status keep polling, as do send failures, missing responses, non-accepted
status codes and responses with fewer than 4 data bytes. -/
def monitor_step (p : PollOutcome) : Option Bool :=
  match p with
  | .sendFail => none
  | .noResponse => none
  | .reply status_code data =>
      if status_code = 0 ∧ 4 ≤ data.length then
        let action_status := data.getD 0 0 * 256 + data.getD 1 0
        if action_status = 0 then some true
        else if action_status = 5 then some false
        else if action_status = 1 then some true
        else none
      else none

/-- The `monitor_action` polling loop over a stream of poll outcomes.  `fuel`
is the number of 500 ms poll iterations the overall timeout allows and `i`
the current poll index; exhausting the fuel is the monitoring-timeout failure
path (`return False` after the loop). -/
def monitor_action (polls : Nat → PollOutcome) : Nat → Nat → Bool
  | 0, _ => false
  | fuel + 1, i =>
      match monitor_step (polls i) with
      | some r => r
      | none => monitor_action polls fuel (i + 1)

/-- Poll-outcome stream whose status responses are BUSY, BUSY, then READY. -/
def busy_busy_ready (i : Nat) : PollOutcome :=
  PollOutcome.reply 0 [0, if i < 2 then 3 else 0, 0, 0]

/-! ## Workflow bridge (`server.py`, `PipetteWorkflowDataBlock`, with the
address map and ports of `config.py`) -/

/-- Workflow phases of `PipetteWorkflowDataBlock.workflow_state`. -/
inductive Phase where
  | IDLE : Phase
  | ACKNOWLEDGED : Phase
  | RUNNING : Phase
  | COMPLETED : Phase
deriving DecidableEq

/-- `PipetteWorkflow`: name, trigger address, device command, command
arguments and the serial port of the device the workflow targets. -/
structure Workflow where
  name : String
  address : Nat
  command : String
  args : List String
  port : String
deriving DecidableEq

/-- `config.PIPETTE_PORT`. -/
def PIPETTE_PORT : String := "/dev/tty.usbserial-FT3LK3ZO"

/-- `config.PIPETTE_PORT_2`. -/
def PIPETTE_PORT_2 : String := "/dev/tty.usbserial-FTXKT5V3"

/-- The `self.workflows` dictionary built in
`PipetteWorkflowDataBlock.__init__`: trigger addresses 2/3/4 are aspirate,
dispense and home on pipette 1 and addresses 6/7/8 the same commands on
pipette 2, with the default volumes and speeds of `config.py` rendered as
argument strings. -/
def workflows (address : Nat) : Option Workflow :=
  if address = 2 then
    some ⟨"Pipette 1: Aspirate (Fill Pipette)", 2, "aspirate",
      ["--volume", "5000", "--speed", "5"], PIPETTE_PORT⟩
  else if address = 3 then
    some ⟨"Pipette 1: Dispense (Drop in Dish)", 3, "dispense",
      ["--volume", "1250", "--speed", "5"], PIPETTE_PORT⟩
  else if address = 4 then
    some ⟨"Pipette 1: Home (Return to Rack)", 4, "home",
      ["--speed", "5"], PIPETTE_PORT⟩
  else if address = 6 then
    some ⟨"Pipette 2: Aspirate (Fill Pipette)", 6, "aspirate",
      ["--volume", "5000", "--speed", "5"], PIPETTE_PORT_2⟩
  else if address = 7 then
    some ⟨"Pipette 2: Dispense (Drop in Dish)", 7, "dispense",
      ["--volume", "1250", "--speed", "5"], PIPETTE_PORT_2⟩
  else if address = 8 then
    some ⟨"Pipette 2: Home (Return to Rack)", 8, "home",
      ["--speed", "5"], PIPETTE_PORT_2⟩
  else none

/-- Command line dispatched by `execute_workflow.run_command`. -/
def cmd_args (w : Workflow) : List String :=
  ["python", "integrate_pipette.py", w.command] ++ w.args ++ ["--port", w.port]

/-- State of the `PipetteWorkflowDataBlock` bridge.  `last_values` is the
per-address deduplication dictionary (`None` when an address was never
written), `registers` the underlying Modbus register store written through
`super().setValues`, `worker` the workflow whose `run_command` thread has been
spawned and has not finished, and `handler_invocations` a ghost counter of
calls to the two workflow handlers, used to state duplicate-write
suppression. -/
structure BridgeState where
  pipette_busy : Bool
  workflow_state : Phase
  current_workflow : Option Workflow
  last_values : Nat → Option Bool
  registers : Nat → Bool
  worker : Option Workflow
  handler_invocations : Nat

/-- `ModbusSparseDataBlock.setValues`: store the value list at consecutive
addresses starting at `address`. -/
def setRegs (r : Nat → Bool) (address : Nat) : List Bool → (Nat → Bool)
  | [] => r
  | v :: vs => setRegs (fun x => if x = address then v else r x) (address + 1) vs

/-- The bridge's internal `self.setValues(1, [v])` calls on the acknowledgment
address: deduplication bookkeeping plus the register-store update.  No
workflow is configured at address 1, so these writes never re-enter a
handler; `setValues_one_eq_ack_write` below checks that this is exactly
`setValues` specialised to address 1. -/
def ack_write (s : BridgeState) (v : Bool) : BridgeState :=
  let s1 :=
    if s.last_values 1 ≠ some v then
      { s with last_values := fun x => if x = 1 then some v else s.last_values x }
    else s
  { s1 with registers := setRegs s1.registers 1 [v] }

/-- `PipetteWorkflowDataBlock.handle_robot_request` together with the
synchronous part of `execute_workflow`: ignore the request unless the phase
is IDLE; otherwise write true to address 1, move to ACKNOWLEDGED, record the
active workflow, and (unless `pipette_busy`) spawn the `run_command` worker
thread. -/
def handle_robot_request (s : BridgeState) (workflow : Workflow) : BridgeState :=
  let s := { s with handler_invocations := s.handler_invocations + 1 }
  if s.workflow_state ≠ Phase.IDLE then s
  else
    let s := ack_write s true
    let s := { s with workflow_state := Phase.ACKNOWLEDGED,
                      current_workflow := some workflow }
    if s.pipette_busy then s else { s with worker := some workflow }

/-- `PipetteWorkflowDataBlock.handle_robot_acknowledge_completion`: ignored
unless the phase is COMPLETED and the address matches the active workflow;
otherwise return to IDLE and clear the active workflow. -/
def handle_robot_acknowledge_completion (s : BridgeState) (workflow : Workflow) :
    BridgeState :=
  let s := { s with handler_invocations := s.handler_invocations + 1 }
  if s.workflow_state ≠ Phase.COMPLETED ∨ s.current_workflow ≠ some workflow then s
  else { s with workflow_state := Phase.IDLE, current_workflow := none }

/-- `PipetteWorkflowDataBlock.setValues`: process the write only when its
value differs from the last value recorded for the address; a write of true
to a workflow address requests the workflow and a write of false acknowledges
completion; the underlying register store is always updated. -/
def setValues (s : BridgeState) (address : Nat) (values : List Bool) : BridgeState :=
  let current_value := values.headD false
  let s1 :=
    if s.last_values address ≠ some current_value then
      let s2 := { s with last_values :=
        fun x => if x = address then some current_value else s.last_values x }
      match workflows address, values with
      | some workflow, v :: _ =>
          if v then handle_robot_request s2 workflow
          else handle_robot_acknowledge_completion s2 workflow
      | _, _ => s2
    else s
  { s1 with registers := setRegs s1.registers address values }

/-- Outcome of the `subprocess.run` call in `execute_workflow.run_command`:
an exit code, a `subprocess.TimeoutExpired`, or another raised exception. -/
inductive ProcResult where
  | exitCode (returncode : Nat) : ProcResult
  | timedOut : ProcResult
  | raised : ProcResult
deriving DecidableEq

/-- `PipetteWorkflowDataBlock.reset_workflow`: write false to address 1,
return to IDLE and clear the active workflow. -/
def reset_workflow (s : BridgeState) : BridgeState :=
  let s := ack_write s false
  { s with workflow_state := Phase.IDLE, current_workflow := none }

/-- Events driving the bridge: an external register write, the start of a
spawned `run_command` worker thread (which marks the pipette busy and the
phase RUNNING), and the completion of the worker's subprocess with a result. -/
inductive Event where
  | write (address : Nat) (values : List Bool) : Event
  | startRun : Event
  | procDone (result : ProcResult) : Event

/-- One step of the bridge.  `procDone` with exit code 0 writes false to
address 1 and moves to COMPLETED; any other result runs `reset_workflow`;
both then run the `finally` block clearing `pipette_busy`, and the finished
worker is cleared. -/
def step (s : BridgeState) : Event → BridgeState
  | .write address values => setValues s address values
  | .startRun =>
      match s.worker with
      | none => s
      | some _ => { s with pipette_busy := true, workflow_state := Phase.RUNNING }
  | .procDone result =>
      match s.worker with
      | none => s
      | some _ =>
          let s1 :=
            match result with
            | .exitCode 0 =>
                let t := ack_write s false
                { t with workflow_state := Phase.COMPLETED }
            | _ => reset_workflow s
          { s1 with pipette_busy := false, worker := none }

/-- Folding a list of events through `step`. -/
def run (s : BridgeState) (events : List Event) : BridgeState :=
  events.foldl step s

/-- The server's data block at startup: phase IDLE, not busy, no active
workflow, empty deduplication dictionary, all registers 0. -/
def initialState : BridgeState :=
  { pipette_busy := false
    workflow_state := Phase.IDLE
    current_workflow := none
    last_values := fun _ => none
    registers := fun _ => false
    worker := none
    handler_invocations := 0 }

/-! ## Codec lemmas -/

theorem fst_build_message (st msgType : Nat) (data : List Nat) :
    (build_message st msgType data).1 = next_sequence st := rfl

theorem iterate_next_sequence (n : Nat) :
    ∀ s : Nat, s + n ≤ 65001 → next_sequence^[n] s = s + n := by
  induction n with
  | zero => intro s _; simp
  | succ n ih =>
      intro s h
      rw [Function.iterate_succ_apply]
      have hs : next_sequence s = s + 1 := by
        have : ¬ s > 65000 := by omega
        simp [next_sequence, this]
      rw [hs, ih (s + 1) (by omega)]
      omega

theorem monitor_action_of_first_terminal (polls : Nat → PollOutcome)
    (i n fuel : Nat) (r : Bool)
    (hnone : ∀ j, j < n → monitor_step (polls (i + j)) = none)
    (hterm : monitor_step (polls (i + n)) = some r)
    (hfuel : n < fuel) :
    monitor_action polls fuel i = r := by
  induction n generalizing i fuel with
  | zero =>
      obtain ⟨f, rfl⟩ : ∃ f, fuel = f + 1 := ⟨fuel - 1, by omega⟩
      rw [monitor_action]
      rw [show i + 0 = i from rfl] at hterm
      rw [hterm]
  | succ n ih =>
      obtain ⟨f, rfl⟩ : ∃ f, fuel = f + 1 := ⟨fuel - 1, by omega⟩
      rw [monitor_action]
      have h0 : monitor_step (polls i) = none := by
        have := hnone 0 (by omega)
        rwa [show i + 0 = i from rfl] at this
      rw [h0]
      exact ih (i + 1) f
        (fun j hj => by
          have := hnone (j + 1) (by omega)
          rwa [show i + (j + 1) = i + 1 + j from by omega] at this)
        (by rwa [show i + 1 + n = i + (n + 1) from by omega])
        (by omega)


theorem monitor_action_allbusy :
    ∀ (fuel i : Nat),
      monitor_action (fun _ => PollOutcome.reply 0 [0, 3, 0, 0]) fuel i = false := by
  intro fuel
  induction fuel with
  | zero => intro i; rfl
  | succ f ih =>
      intro i
      rw [monitor_action]
      have h : monitor_step (PollOutcome.reply 0 [0, 3, 0, 0]) = none := by decide
      simp only [h]
      exact ih (i + 1)

/-! ## Display-field lemmas -/

theorem ljust_take_length (x : List Nat) : (ljust (x.take 20) 20 0).length = 20 := by
  simp only [ljust, List.length_append, List.length_replicate, List.length_take]
  omega

theorem display_field_of_ne (message action_name : List Nat) (hne : message ≠ []) :
    display_field message action_name = purge_display_field message := by
  unfold display_field purge_display_field
  dsimp only
  rw [if_neg hne]

theorem purge_display_field_length (message : List Nat) :
    (purge_display_field message).length = 20 := by
  unfold purge_display_field
  dsimp only
  exact ljust_take_length _

theorem display_field_length (message action_name : List Nat) :
    (display_field message action_name).length = 20 := by
  unfold display_field
  dsimp only
  exact ljust_take_length _

theorem display_core_ascii (l : List Nat) (hascii : ∀ c ∈ l, c < 128) :
    purge_display_field l
      = l.take 20 ++ List.replicate (20 - (l.take 20).length) 0 := by
  unfold purge_display_field
  dsimp only
  have htake : (l.take 20).length ≤ 20 := by
    simp
  have hfilter : (ljust (l.take 20) 20 0).filter (fun c => c < 128)
      = ljust (l.take 20) 20 0 := by
    rw [List.filter_eq_self]
    intro a ha
    rcases List.mem_append.mp ha with h | h
    · exact decide_eq_true (hascii a (List.take_subset 20 l h))
    · rw [List.eq_of_mem_replicate h]
      decide
  have hlen : (ljust (l.take 20) 20 0).length = 20 := by
    simp only [ljust, List.length_append, List.length_replicate]
    omega
  have hfull : ∀ m : List Nat, m.length = 20 → ljust m 20 0 = m := by
    intro m hm
    unfold ljust
    rw [hm]
    simp
  have h1 : List.take 20 (ljust (l.take 20) 20 0) = ljust (l.take 20) 20 0 :=
    List.take_of_length_le (le_of_eq hlen)
  rw [hfilter, h1, h1, hfull _ hlen]
  rfl

/-! ## Bridge lemmas -/

theorem workflows_one : workflows 1 = none := rfl

theorem setValues_one_eq_ack_write (s : BridgeState) (v : Bool) :
    setValues s 1 [v] = ack_write s v := rfl

theorem setRegs_lt (vs : List Bool) :
    ∀ (r : Nat → Bool) (a x : Nat), x < a → setRegs r a vs x = r x := by
  induction vs with
  | nil => intro r a x _; rfl
  | cons v vs ih =>
      intro r a x hx
      show setRegs (fun y => if y = a then v else r y) (a + 1) vs x = r x
      rw [ih _ _ _ (by omega)]
      simp [Nat.ne_of_lt hx]

theorem setRegs_congr (vs : List Bool) :
    ∀ (r r' : Nat → Bool), (∀ y, r y = r' y) →
      ∀ (a x : Nat), setRegs r a vs x = setRegs r' a vs x := by
  induction vs with
  | nil => intro r r' h a x; exact h x
  | cons v vs ih =>
      intro r r' h a x
      show setRegs (fun y => if y = a then v else r y) (a + 1) vs x
        = setRegs (fun y => if y = a then v else r' y) (a + 1) vs x
      exact ih _ _ (fun y => by by_cases hy : y = a <;> simp [hy, h y]) _ _

theorem setRegs_idem (vs : List Bool) :
    ∀ (r : Nat → Bool) (a x : Nat),
      setRegs (setRegs r a vs) a vs x = setRegs r a vs x := by
  induction vs with
  | nil => intro r a x; rfl
  | cons v vs ih =>
      intro r a x
      show setRegs
          (fun y => if y = a then v
            else setRegs (fun z => if z = a then v else r z) (a + 1) vs y) (a + 1) vs x
        = setRegs (fun z => if z = a then v else r z) (a + 1) vs x
      have hpt : ∀ y,
          (if y = a then v
            else setRegs (fun z => if z = a then v else r z) (a + 1) vs y)
          = setRegs (fun z => if z = a then v else r z) (a + 1) vs y := by
        intro y
        by_cases hy : y = a
        · subst hy
          rw [setRegs_lt vs _ _ _ (by omega)]
          simp
        · simp [hy]
      rw [setRegs_congr vs _ _ hpt (a + 1) x]
      exact ih _ _ _

theorem ack_write_workflow_state (s : BridgeState) (v : Bool) :
    (ack_write s v).workflow_state = s.workflow_state := by
  unfold ack_write; split <;> rfl

theorem ack_write_current_workflow (s : BridgeState) (v : Bool) :
    (ack_write s v).current_workflow = s.current_workflow := by
  unfold ack_write; split <;> rfl

theorem ack_write_worker (s : BridgeState) (v : Bool) :
    (ack_write s v).worker = s.worker := by
  unfold ack_write; split <;> rfl

theorem ack_write_pipette_busy (s : BridgeState) (v : Bool) :
    (ack_write s v).pipette_busy = s.pipette_busy := by
  unfold ack_write; split <;> rfl

theorem ack_write_handler_invocations (s : BridgeState) (v : Bool) :
    (ack_write s v).handler_invocations = s.handler_invocations := by
  unfold ack_write; split <;> rfl

theorem ack_write_registers (s : BridgeState) (v : Bool) (x : Nat) :
    (ack_write s v).registers x = if x = 1 then v else s.registers x := by
  unfold ack_write; split <;> rfl

theorem ack_write_last_values (s : BridgeState) (v : Bool) (x : Nat) (hx : x ≠ 1) :
    (ack_write s v).last_values x = s.last_values x := by
  unfold ack_write; split
  · simp [hx]
  · rfl

theorem handle_robot_request_not_idle (s : BridgeState) (w : Workflow)
    (h : s.workflow_state ≠ Phase.IDLE) :
    handle_robot_request s w
      = { s with handler_invocations := s.handler_invocations + 1 } := by
  unfold handle_robot_request
  dsimp only
  split
  · rfl
  · rename_i hcond
    exact absurd h (by simpa using hcond)

theorem handle_robot_request_invocations (s : BridgeState) (w : Workflow) :
    (handle_robot_request s w).handler_invocations = s.handler_invocations + 1 := by
  unfold handle_robot_request
  dsimp only
  split
  · rfl
  · split <;> simp [ack_write_handler_invocations]

theorem handle_robot_request_last_values (s : BridgeState) (w : Workflow)
    (x : Nat) (hx : x ≠ 1) :
    (handle_robot_request s w).last_values x = s.last_values x := by
  unfold handle_robot_request
  dsimp only
  split
  · rfl
  · split <;> simp [show ∀ t : BridgeState, (ack_write t true).last_values x
      = t.last_values x from fun t => ack_write_last_values t true x hx]

theorem handle_robot_acknowledge_completion_invocations (s : BridgeState)
    (w : Workflow) :
    (handle_robot_acknowledge_completion s w).handler_invocations
      = s.handler_invocations + 1 := by
  unfold handle_robot_acknowledge_completion
  dsimp only
  split <;> rfl

theorem handle_robot_acknowledge_completion_last_values (s : BridgeState)
    (w : Workflow) (x : Nat) :
    (handle_robot_acknowledge_completion s w).last_values x = s.last_values x := by
  unfold handle_robot_acknowledge_completion
  dsimp only
  split <;> rfl

theorem setValues_last_values_self (s : BridgeState) (address : Nat)
    (values : List Bool) :
    (setValues s address values).last_values address
      = some (values.headD false) := by
  unfold setValues
  dsimp only
  by_cases hlast : s.last_values address ≠ some (values.headD false)
  · rw [if_pos hlast]
    rcases hwf : workflows address with _ | w
    · rcases values with _ | ⟨v, vs⟩ <;> simp
    · have ha1 : address ≠ 1 := by
        intro h; rw [h, workflows_one] at hwf; cases hwf
      rcases values with _ | ⟨v, vs⟩
      · simp
      · cases v <;>
          simp [handle_robot_request_last_values _ _ _ ha1,
            handle_robot_acknowledge_completion_last_values]
  · rw [if_neg hlast]
    push_neg at hlast
    simpa using hlast

theorem setValues_of_last_eq (s : BridgeState) (address : Nat) (values : List Bool)
    (h : s.last_values address = some (values.headD false)) :
    setValues s address values
      = { s with registers := setRegs s.registers address values } := by
  unfold setValues
  dsimp only
  rw [if_neg (by simp [h])]

theorem setValues_invocations_le (s : BridgeState) (address : Nat)
    (values : List Bool) :
    (setValues s address values).handler_invocations
      ≤ s.handler_invocations + 1 := by
  unfold setValues
  dsimp only
  by_cases hlast : s.last_values address ≠ some (values.headD false)
  · rw [if_pos hlast]
    rcases hwf : workflows address with _ | w
    · rcases values with _ | ⟨v, vs⟩ <;> simp
    · rcases values with _ | ⟨v, vs⟩
      · simp
      · cases v <;>
          simp [handle_robot_request_invocations,
            handle_robot_acknowledge_completion_invocations]
  · rw [if_neg hlast]
    simp

theorem write_true_ignored_of_not_idle (s : BridgeState) (address : Nat)
    (w : Workflow) (hidle : s.workflow_state ≠ Phase.IDLE)
    (hw : workflows address = some w) :
    (step s (Event.write address [true])).workflow_state = s.workflow_state
    ∧ (step s (Event.write address [true])).current_workflow = s.current_workflow
    ∧ (step s (Event.write address [true])).worker = s.worker
    ∧ (step s (Event.write address [true])).pipette_busy = s.pipette_busy
    ∧ (step s (Event.write address [true])).registers 1 = s.registers 1
    ∧ (step s (Event.write address [true])).last_values 1 = s.last_values 1 := by
  have ha1 : address ≠ 1 := by
    intro h; rw [h, workflows_one] at hw; cases hw
  have h1a : (1 : Nat) ≠ address := Ne.symm ha1
  have hall : ∀ e : Event, e = Event.write address [true] →
      step s e = setValues s address [true] := fun e he => by rw [he]; rfl
  rw [hall _ rfl]
  unfold setValues
  dsimp only
  by_cases hlast : s.last_values address ≠ some ([true].headD false)
  · rw [if_pos hlast, hw]
    dsimp only
    rw [handle_robot_request_not_idle _ _ (by simpa using hidle)]
    refine ⟨rfl, rfl, rfl, rfl, ?_, ?_⟩
    · show setRegs _ address [true] 1 = s.registers 1
      simp [setRegs, h1a]
    · simp [h1a]
  · rw [if_neg hlast]
    refine ⟨rfl, rfl, rfl, rfl, ?_, rfl⟩
    show setRegs _ address [true] 1 = s.registers 1
    simp [setRegs, h1a]

end Pipette

namespace Pipette

/-! ## Claim theorems: frame codec -/

/-- C2: the checksum stored at header offset 2 is the two's-complement of the
sum of all header+payload bytes with the checksum field held at 0, computed
before escaping and before the STX/ETX wrapper; zeroing the checksum field
recovers the summed bytes, and the byte sum plus the stored checksum vanishes
modulo 256. -/
theorem C2_checksum_invariant (seq msgType : Nat) (data : List Nat) :
    message_bytes seq msgType data
      = (message_zero_checksum seq msgType data).set 2
          (build_checksum (message_zero_checksum seq msgType data))
    ∧ (message_bytes seq msgType data).set 2 0 = message_zero_checksum seq msgType data
    ∧ (message_bytes seq msgType data).getD 2 0
      = (256 - (message_zero_checksum seq msgType data).sum % 256) % 256
    ∧ ((message_zero_checksum seq msgType data).sum
        + (message_bytes seq msgType data).getD 2 0) % 256 = 0
    ∧ (build_message seq msgType data).2
      = STX :: (escape_data (message_bytes (next_sequence seq) msgType data) ++ [ETX]) := by
  refine ⟨rfl, ?_, ?_, ?_, rfl⟩
  · simp [message_bytes, message_zero_checksum, build_header, List.set]
  · simp [message_bytes, message_zero_checksum, build_header, List.set,
      build_checksum, List.getD]
  · simp only [message_bytes, message_zero_checksum, build_header, List.set,
      build_checksum, List.cons_append, List.nil_append, List.sum_cons,
      List.getD_cons_succ, List.getD_cons_zero]
    omega

/-- C8, counterexample: the 65000th consecutive encode from a fresh controller
(sequence counter 1) emits sequence number 65001, outside the claimed range
1..65000. -/
theorem C8_counterexample :
    (build_message (seq_after 64999) 2 []).1 = 65001
    ∧ ¬ (build_message (seq_after 64999) 2 []).1 ≤ 65000 := by
  have h : seq_after 64999 = 65000 := by
    rw [seq_after, iterate_next_sequence 64999 1 (by omega)]
  rw [fst_build_message, h]
  refine ⟨by simp [next_sequence], by simp [next_sequence]⟩

/-- C8 (amended): the sequence counter starts at 1 and steps once per encoded
frame, wrapping back to 1 only above 65000; emitted sequence numbers therefore
lie in 1..65001 and are never 0, and after 65000 consecutive encodes from a
fresh controller the next encode emits sequence number 1. -/
theorem C8_sequence_amended (st msgType : Nat) (data : List Nat)
    (h1 : 1 ≤ st) (h2 : st ≤ 65001) :
    1 ≤ (build_message st msgType data).1
    ∧ (build_message st msgType data).1 ≤ 65001
    ∧ (build_message st msgType data).1 ≠ 0
    ∧ seq_after 0 = 1
    ∧ seq_after 65000 = 65001
    ∧ (build_message (seq_after 65000) msgType data).1 = 1 := by
  have hw : seq_after 65000 = 65001 := by
    rw [seq_after, iterate_next_sequence 65000 1 (by omega)]
  refine ⟨?_, ?_, ?_, rfl, hw, ?_⟩
  · rw [fst_build_message]; unfold next_sequence; split <;> omega
  · rw [fst_build_message]; unfold next_sequence; split <;> omega
  · rw [fst_build_message]; unfold next_sequence; split <;> omega
  · rw [fst_build_message, hw]
    simp [next_sequence]

/-- C8, witness: the amended bounds instantiated at a fresh counter value 1
with message type 2 and an empty payload. -/
theorem C8_witness :
    1 ≤ (build_message 1 2 []).1
    ∧ (build_message 1 2 []).1 ≤ 65001
    ∧ (build_message 1 2 []).1 ≠ 0
    ∧ seq_after 0 = 1
    ∧ seq_after 65000 = 65001
    ∧ (build_message (seq_after 65000) 2 []).1 = 1 :=
  C8_sequence_amended 1 2 [] (by decide) (by decide)

/-! ## Claim theorems: SET_ACTION payload, monitor, workflow bridge -/

/-- C9, counterexample: the SET_ACTION payload built by `execute_action` for a
purge (action 4, speed 5, no volume, no mix cycles, no RUN confirmation,
default display message for action name "PURGE") is 28 bytes long, not 27. -/
theorem C9_counterexample :
    (execute_action_data 4 5 0 0 false [] [80, 85, 82, 71, 69]).length = 28
    ∧ (execute_action_data 4 5 0 0 false [] [80, 85, 82, 71, 69]).length ≠ 27 := by
  constructor
  · decide
  · decide

/-- C9 (amended): every SET_ACTION payload built for an action -- by
`execute_action` and by `PipetteController.purge` alike -- has the exact
layout action, speed, volume high byte, volume low byte, mix cycles, RUN
confirmation flag, a display message field of exactly 20 bytes, and two
spacing bytes, and totals 28 bytes, not 27; the display field is NUL-padded,
and for an ASCII message it is the message truncated to 20 bytes and
NUL-padded to exactly 20. -/
theorem C9_payload_layout_amended (action speed volume mix_cycles : Nat)
    (run_confirmation : Bool) (message action_name : List Nat) :
    execute_action_data action speed volume mix_cycles run_confirmation
        message action_name
      = [action, speed, volume / 256, volume % 256, mix_cycles,
          if run_confirmation then 1 else 0]
        ++ display_field message action_name ++ [0, 0]
    ∧ (display_field message action_name).length = 20
    ∧ (execute_action_data action speed volume mix_cycles run_confirmation
        message action_name).length = 28
    ∧ purge_action_data speed message
      = [4, speed, 0, 0, 0, 0] ++ purge_display_field message ++ [0, 0]
    ∧ (purge_display_field message).length = 20
    ∧ (purge_action_data speed message).length = 28
    ∧ (message ≠ [] → (∀ c ∈ message, c < 128) →
        display_field message action_name
          = message.take 20 ++ List.replicate (20 - (message.take 20).length) 0)
    ∧ ((∀ c ∈ message, c < 128) →
        purge_display_field message
          = message.take 20
            ++ List.replicate (20 - (message.take 20).length) 0) := by
  refine ⟨rfl, display_field_length message action_name, ?_, rfl,
    purge_display_field_length message, ?_, ?_, ?_⟩
  · unfold execute_action_data
    simp [display_field_length]
  · unfold purge_action_data
    simp [purge_display_field_length]
  · intro hne hascii
    rw [display_field_of_ne message action_name hne]
    exact display_core_ascii message hascii
  · intro hascii
    exact display_core_ascii message hascii

/-- C9, witness: the layout, the 20-byte display fields, the 28-byte totals
and the ASCII truncation conclusions instantiated for an aspirate command
with volume 100, speed 5 and the four-character ASCII message "Test". -/
theorem C9_witness :
    execute_action_data 1 5 100 0 false [84, 101, 115, 116] []
      = [1, 5, 100 / 256, 100 % 256, 0, if false then 1 else 0]
        ++ display_field [84, 101, 115, 116] [] ++ [0, 0]
    ∧ (display_field [84, 101, 115, 116] []).length = 20
    ∧ (execute_action_data 1 5 100 0 false [84, 101, 115, 116] []).length = 28
    ∧ purge_action_data 5 [84, 101, 115, 116]
      = [4, 5, 0, 0, 0, 0] ++ purge_display_field [84, 101, 115, 116] ++ [0, 0]
    ∧ (purge_display_field [84, 101, 115, 116]).length = 20
    ∧ (purge_action_data 5 [84, 101, 115, 116]).length = 28
    ∧ display_field [84, 101, 115, 116] []
      = [84, 101, 115, 116].take 20
        ++ List.replicate (20 - ([84, 101, 115, 116].take 20).length) 0
    ∧ purge_display_field [84, 101, 115, 116]
      = [84, 101, 115, 116].take 20
        ++ List.replicate (20 - ([84, 101, 115, 116].take 20).length) 0 := by
  obtain ⟨h1, h2, h3, h4, h5, h6, h7, h8⟩ :=
    C9_payload_layout_amended 1 5 100 0 false [84, 101, 115, 116] []
  exact ⟨h1, h2, h3, h4, h5, h6, h7 (by decide) (by decide), h8 (by decide)⟩

/-- C5: the status monitor returns the decision of the first terminal poll
(READY and WAIT_FOR_BLOWIN succeed, USER_ABORT fails) while
WAIT_FOR_RUN_KEY, BUSY, PIPETTE_NOT_HOMED, failed sends, missing responses,
non-accepted status codes and short responses keep it polling; a stream that
stays BUSY fails for every fuel bound (overall timeout), and the sequence
BUSY, BUSY, READY succeeds after exactly 3 polls. -/
theorem C5_monitor_policy (polls : Nat → PollOutcome) (i n fuel : Nat) (r : Bool)
    (hnone : ∀ j, j < n → monitor_step (polls (i + j)) = none)
    (hterm : monitor_step (polls (i + n)) = some r)
    (hfuel : n < fuel) :
    monitor_action polls fuel i = r
    ∧ monitor_step (PollOutcome.reply 0 [0, 0, 0, 0]) = some true
    ∧ monitor_step (PollOutcome.reply 0 [0, 1, 0, 0]) = some true
    ∧ monitor_step (PollOutcome.reply 0 [0, 5, 0, 0]) = some false
    ∧ monitor_step (PollOutcome.reply 0 [0, 2, 0, 0]) = none
    ∧ monitor_step (PollOutcome.reply 0 [0, 3, 0, 0]) = none
    ∧ monitor_step (PollOutcome.reply 0 [0, 4, 0, 0]) = none
    ∧ monitor_step PollOutcome.sendFail = none
    ∧ monitor_step PollOutcome.noResponse = none
    ∧ (∀ d : List Nat, monitor_step (PollOutcome.reply 4 d) = none)
    ∧ monitor_step (PollOutcome.reply 0 [0, 0, 0]) = none
    ∧ (∀ f j : Nat,
        monitor_action (fun _ => PollOutcome.reply 0 [0, 3, 0, 0]) f j = false)
    ∧ monitor_action busy_busy_ready 3 0 = true := by
  refine ⟨monitor_action_of_first_terminal polls i n fuel r hnone hterm hfuel,
    by decide, by decide, by decide, by decide, by decide, by decide,
    by decide, by decide, ?_, by decide, monitor_action_allbusy, by decide⟩
  intro d
  simp [monitor_step]

/-- C5, witness: the policy instantiated on the BUSY, BUSY, READY stream,
whose first terminal poll is the third one and succeeds. -/
theorem C5_witness :
    monitor_action busy_busy_ready 3 0 = true
    ∧ monitor_step (PollOutcome.reply 0 [0, 0, 0, 0]) = some true
    ∧ monitor_step (PollOutcome.reply 0 [0, 1, 0, 0]) = some true
    ∧ monitor_step (PollOutcome.reply 0 [0, 5, 0, 0]) = some false
    ∧ monitor_step (PollOutcome.reply 0 [0, 2, 0, 0]) = none
    ∧ monitor_step (PollOutcome.reply 0 [0, 3, 0, 0]) = none
    ∧ monitor_step (PollOutcome.reply 0 [0, 4, 0, 0]) = none
    ∧ monitor_step PollOutcome.sendFail = none
    ∧ monitor_step PollOutcome.noResponse = none
    ∧ (∀ d : List Nat, monitor_step (PollOutcome.reply 4 d) = none)
    ∧ monitor_step (PollOutcome.reply 0 [0, 0, 0]) = none
    ∧ (∀ f j : Nat,
        monitor_action (fun _ => PollOutcome.reply 0 [0, 3, 0, 0]) f j = false)
    ∧ monitor_action busy_busy_ready 3 0 = true :=
  C5_monitor_policy busy_busy_ready 0 2 3 true
    (by decide) (by decide) (by decide)

/-- C3: from the initial IDLE state, writing true to trigger address 2 sets
acknowledgment address 1 to true and records workflow 2 as active
(ACKNOWLEDGED); once the worker thread starts the phase is RUNNING; when the
device command exits 0 the bridge has written false to address 1 and the
phase is COMPLETED; writing false to address 2 then returns the phase to
IDLE and clears the active workflow. -/
theorem C3_state_machine_scenario :
    ((run initialState [Event.write 2 [true]]).registers 1 = true
      ∧ (run initialState [Event.write 2 [true]]).current_workflow = workflows 2
      ∧ (run initialState [Event.write 2 [true]]).workflow_state
          = Phase.ACKNOWLEDGED)
    ∧ (run initialState [Event.write 2 [true], Event.startRun]).workflow_state
        = Phase.RUNNING
    ∧ ((run initialState [Event.write 2 [true], Event.startRun,
          Event.procDone (ProcResult.exitCode 0)]).registers 1 = false
      ∧ (run initialState [Event.write 2 [true], Event.startRun,
          Event.procDone (ProcResult.exitCode 0)]).workflow_state
          = Phase.COMPLETED)
    ∧ ((run initialState [Event.write 2 [true], Event.startRun,
          Event.procDone (ProcResult.exitCode 0),
          Event.write 2 [false]]).workflow_state = Phase.IDLE
      ∧ (run initialState [Event.write 2 [true], Event.startRun,
          Event.procDone (ProcResult.exitCode 0),
          Event.write 2 [false]]).current_workflow = none) := by
  decide

/-- C4: while the phase is not IDLE, an external write of true to a configured
trigger address is ignored: the phase, active workflow, spawned worker and
busy flag are unchanged, and no acknowledgment write happens (register and
deduplication entry of address 1 untouched). -/
theorem C4_busy_rejection (s : BridgeState) (address : Nat) (w : Workflow)
    (hidle : s.workflow_state ≠ Phase.IDLE) (hw : workflows address = some w) :
    (step s (Event.write address [true])).workflow_state = s.workflow_state
    ∧ (step s (Event.write address [true])).current_workflow = s.current_workflow
    ∧ (step s (Event.write address [true])).worker = s.worker
    ∧ (step s (Event.write address [true])).pipette_busy = s.pipette_busy
    ∧ (step s (Event.write address [true])).registers 1 = s.registers 1
    ∧ (step s (Event.write address [true])).last_values 1 = s.last_values 1 :=
  write_true_ignored_of_not_idle s address w hidle hw

/-- C4, witness: a RUNNING state ignores a write of true to trigger address 3. -/
theorem C4_witness :
    (step { initialState with workflow_state := Phase.RUNNING }
        (Event.write 3 [true])).workflow_state
      = ({ initialState with workflow_state := Phase.RUNNING } :
          BridgeState).workflow_state
    ∧ (step { initialState with workflow_state := Phase.RUNNING }
        (Event.write 3 [true])).current_workflow
      = ({ initialState with workflow_state := Phase.RUNNING } :
          BridgeState).current_workflow
    ∧ (step { initialState with workflow_state := Phase.RUNNING }
        (Event.write 3 [true])).worker
      = ({ initialState with workflow_state := Phase.RUNNING } :
          BridgeState).worker
    ∧ (step { initialState with workflow_state := Phase.RUNNING }
        (Event.write 3 [true])).pipette_busy
      = ({ initialState with workflow_state := Phase.RUNNING } :
          BridgeState).pipette_busy
    ∧ (step { initialState with workflow_state := Phase.RUNNING }
        (Event.write 3 [true])).registers 1
      = ({ initialState with workflow_state := Phase.RUNNING } :
          BridgeState).registers 1
    ∧ (step { initialState with workflow_state := Phase.RUNNING }
        (Event.write 3 [true])).last_values 1
      = ({ initialState with workflow_state := Phase.RUNNING } :
          BridgeState).last_values 1 :=
  C4_busy_rejection { initialState with workflow_state := Phase.RUNNING } 3
    ⟨"Pipette 1: Dispense (Drop in Dish)", 3, "dispense",
      ["--volume", "1250", "--speed", "5"], PIPETTE_PORT⟩
    (by decide) (by decide)

/-- C6: when the worker's device command ends with a non-zero exit code, a
timeout or an exception, the bridge writes false to acknowledgment address 1,
returns the phase to IDLE (bypassing COMPLETED), clears the active workflow,
and the busy flag and worker are cleared. -/
theorem C6_error_resets (s : BridgeState) (w : Workflow) (result : ProcResult)
    (hworker : s.worker = some w) (hfail : result ≠ ProcResult.exitCode 0) :
    (step s (Event.procDone result)).registers 1 = false
    ∧ (step s (Event.procDone result)).workflow_state = Phase.IDLE
    ∧ (step s (Event.procDone result)).current_workflow = none
    ∧ (step s (Event.procDone result)).pipette_busy = false
    ∧ (step s (Event.procDone result)).worker = none := by
  have hstep : step s (Event.procDone result)
      = { (match result with
            | ProcResult.exitCode 0 =>
                { ack_write s false with workflow_state := Phase.COMPLETED }
            | _ => reset_workflow s) with
          pipette_busy := false, worker := none } := by
    show (match s.worker with
      | none => s
      | some _ => _) = _
    rw [hworker]
  rw [hstep]
  rcases result with c | _ | _
  · rcases c with _ | c
    · exact absurd rfl hfail
    · exact ⟨by simp [reset_workflow, ack_write_registers], rfl, rfl, rfl, rfl⟩
  · exact ⟨by simp [reset_workflow, ack_write_registers], rfl, rfl, rfl, rfl⟩
  · exact ⟨by simp [reset_workflow, ack_write_registers], rfl, rfl, rfl, rfl⟩

/-- C6, witness: a running aspirate worker whose command exits 1 resets the
bridge to IDLE with address 1 low. -/
theorem C6_witness :
    (step (run initialState [Event.write 2 [true], Event.startRun])
        (Event.procDone (ProcResult.exitCode 1))).registers 1 = false
    ∧ (step (run initialState [Event.write 2 [true], Event.startRun])
        (Event.procDone (ProcResult.exitCode 1))).workflow_state = Phase.IDLE
    ∧ (step (run initialState [Event.write 2 [true], Event.startRun])
        (Event.procDone (ProcResult.exitCode 1))).current_workflow = none
    ∧ (step (run initialState [Event.write 2 [true], Event.startRun])
        (Event.procDone (ProcResult.exitCode 1))).pipette_busy = false
    ∧ (step (run initialState [Event.write 2 [true], Event.startRun])
        (Event.procDone (ProcResult.exitCode 1))).worker = none :=
  C6_error_resets (run initialState [Event.write 2 [true], Event.startRun])
    ⟨"Pipette 1: Aspirate (Fill Pipette)", 2, "aspirate",
      ["--volume", "5000", "--speed", "5"], PIPETTE_PORT⟩
    (ProcResult.exitCode 1) (by decide) (by decide)

/-- C7: two consecutive `setValues` writes of the same value list to the same
address invoke the workflow handlers at most once: the second write changes
nothing (phase, active workflow, worker, busy flag, handler-invocation count,
deduplication entries and registers all unchanged), and a single write
invokes a handler at most once. -/
theorem C7_duplicate_write_suppression (s : BridgeState) (address : Nat)
    (values : List Bool) :
    (step (step s (Event.write address values)) (Event.write address values)).workflow_state = (step s (Event.write address values)).workflow_state
    ∧ (step (step s (Event.write address values)) (Event.write address values)).current_workflow = (step s (Event.write address values)).current_workflow
    ∧ (step (step s (Event.write address values)) (Event.write address values)).worker = (step s (Event.write address values)).worker
    ∧ (step (step s (Event.write address values)) (Event.write address values)).pipette_busy = (step s (Event.write address values)).pipette_busy
    ∧ (step (step s (Event.write address values)) (Event.write address values)).handler_invocations = (step s (Event.write address values)).handler_invocations
    ∧ (∀ x, (step (step s (Event.write address values)) (Event.write address values)).last_values x = (step s (Event.write address values)).last_values x)
    ∧ (∀ x, (step (step s (Event.write address values)) (Event.write address values)).registers x = (step s (Event.write address values)).registers x)
    ∧ (step s (Event.write address values)).handler_invocations
      ≤ s.handler_invocations + 1 := by
  have h1 : (setValues s address values).last_values address
      = some (values.headD false) := setValues_last_values_self s address values
  have h2 : step (step s (Event.write address values))
        (Event.write address values)
      = { setValues s address values with
          registers := setRegs (setValues s address values).registers
            address values } := by
    show setValues (setValues s address values) address values = _
    exact setValues_of_last_eq _ _ _ h1
  rw [h2]
  obtain ⟨r0, hr0⟩ : ∃ r0, (setValues s address values).registers
      = setRegs r0 address values := ⟨_, rfl⟩
  refine ⟨rfl, rfl, rfl, rfl, rfl, fun x => rfl, fun x => ?_, ?_⟩
  · show setRegs (setValues s address values).registers address values x
      = (setValues s address values).registers x
    rw [hr0]
    exact setRegs_idem values r0 address x
  · exact setValues_invocations_le s address values

/-- C10, counterexample: while the pipette-1 aspirate workflow (trigger
address 2, port of device 1) is RUNNING, a write of true to trigger address 6
(a workflow of device 2, a different serial port) is ignored: no second
worker is dispatched and the phase and active workflow are unchanged, so two
workflows targeting different devices cannot run concurrently. -/
theorem C10_counterexample :
    (run initialState [Event.write 2 [true], Event.startRun]).workflow_state
        = Phase.RUNNING
    ∧ (workflows 2).map Workflow.port = some PIPETTE_PORT
    ∧ (workflows 6).map Workflow.port = some PIPETTE_PORT_2
    ∧ PIPETTE_PORT ≠ PIPETTE_PORT_2
    ∧ (step (run initialState [Event.write 2 [true], Event.startRun])
        (Event.write 6 [true])).worker
      = (run initialState [Event.write 2 [true], Event.startRun]).worker
    ∧ (step (run initialState [Event.write 2 [true], Event.startRun])
        (Event.write 6 [true])).workflow_state = Phase.RUNNING
    ∧ (step (run initialState [Event.write 2 [true], Event.startRun])
        (Event.write 6 [true])).current_workflow = workflows 2 := by
  decide

/-- C10 (amended): the busy indication is global to the bridge, not scoped per
device: whenever a workflow is active (phase RUNNING with an active
workflow), a write of true to the trigger address of a workflow on a
different device (different serial port) is ignored just like one on the same
device, so no two workflows ever run concurrently, whether they target the
same device or different devices. -/
theorem C10_global_busy_amended (s : BridgeState) (address : Nat)
    (w w2 : Workflow) (hrun : s.workflow_state = Phase.RUNNING)
    (hcur : s.current_workflow = some w)
    (hw2 : workflows address = some w2) (_hport : w2.port ≠ w.port) :
    (step s (Event.write address [true])).worker = s.worker
    ∧ (step s (Event.write address [true])).workflow_state = Phase.RUNNING
    ∧ (step s (Event.write address [true])).current_workflow = some w := by
  have h := write_true_ignored_of_not_idle s address w2
    (by rw [hrun]; exact fun hc => Phase.noConfusion hc) hw2
  exact ⟨h.2.2.1, by rw [h.1, hrun], by rw [h.2.1, hcur]⟩

/-- C10, witness: the amended global-exclusion statement instantiated at a
RUNNING state whose active workflow is the pipette-1 aspirate while address 6
(pipette 2, different port) is triggered. -/
theorem C10_witness :
    (step (run initialState [Event.write 2 [true], Event.startRun])
        (Event.write 6 [true])).worker
      = (run initialState [Event.write 2 [true], Event.startRun]).worker
    ∧ (step (run initialState [Event.write 2 [true], Event.startRun])
        (Event.write 6 [true])).workflow_state = Phase.RUNNING
    ∧ (step (run initialState [Event.write 2 [true], Event.startRun])
        (Event.write 6 [true])).current_workflow
      = some ⟨"Pipette 1: Aspirate (Fill Pipette)", 2, "aspirate",
          ["--volume", "5000", "--speed", "5"], PIPETTE_PORT⟩ :=
  C10_global_busy_amended
    (run initialState [Event.write 2 [true], Event.startRun]) 6
    ⟨"Pipette 1: Aspirate (Fill Pipette)", 2, "aspirate",
      ["--volume", "5000", "--speed", "5"], PIPETTE_PORT⟩
    ⟨"Pipette 2: Aspirate (Fill Pipette)", 6, "aspirate",
      ["--volume", "5000", "--speed", "5"], PIPETTE_PORT_2⟩
    (by decide) (by decide) (by decide) (by decide)

end Pipette
